import Mathlib

/-!
Shallow embedding of the rolling-restart backend ("rab"): the
`RabbitMQService` broker client (`src/services/rabbitmq.js`), the
`RollingRestartService` orchestrator (`src/controllers/health.js`, third
document), and the `NodeService` SSH executor (`src/unnamed/part_002`).

External I/O (HTTP requests to the broker management API, SSH command
execution) is modelled by oracle parameters of type `Except String _`:
`.ok v` is a resolved promise with value `v`, `.error e` a rejected
promise whose error has message `e`.  JavaScript `try { .. } catch` is
embedded as a `match` on those `Except` values.  Numeric counters are
`Nat`; fractional arithmetic (`Math.round`, `Math.floor`) is carried out
exactly over `ℚ`.
-/

namespace Rab

/-! ## Data model -/

/-- A topology entry (`config/topology.yaml` node), as used by the
orchestrator and the broker client. -/
structure TopoNode where
  id : String
  name : String
  configOrder : Nat
  deriving Repr, DecidableEq

/-- Raw node counters returned by `GET /nodes/{id}` (the fields
`checkNodeHealth` reads). -/
structure NodeInfo where
  mem_used : Nat
  mem_limit : Nat
  disk_free : Nat
  disk_free_limit : Nat
  fd_used : Nat
  fd_total : Nat
  sockets_used : Nat
  sockets_total : Nat
  uptime : Nat
  running : Bool
  partitions : List String
  deriving Repr, DecidableEq

/-- An alarm record from `GET /alarms`. -/
structure Alarm where
  alarm : String
  node : String
  deriving Repr, DecidableEq

/-- JavaScript `Math.round (num / den)` for natural `num`, `den` with
`den > 0`: round half up, i.e. `⌊num/den + 1/2⌋`, computed with natural
division. -/
def jsRoundDiv (num den : Nat) : Nat :=
  (2 * num + den) / (2 * den)

/-! ## HealthEvaluator: `RabbitMQService.checkNodeHealth` -/

/-- The health record built by `checkNodeHealth`.  Metric fields are
`Option` because the catch-branch record of the source leaves them
`undefined`. -/
structure HealthData where
  nodeId : String
  running : Bool
  memoryPercent : Option Nat
  diskFreeGB : Option Nat
  fdPercent : Option Nat
  socketsPercent : Option Nat
  partitions : Option (List String)
  alarms : Option (List Alarm)
  isHealthy : Bool
  issues : List String
  errorMsg : Option String
  deriving Repr, DecidableEq

/-- `RabbitMQService.getAlarms`: returns the HTTP result, or `[]` when the
request failed (the catch branch logs and returns an empty list). -/
def getAlarms (alarmsRes : Except String (List Alarm)) : List Alarm :=
  match alarmsRes with
  | .ok as => as
  | .error _ => []

/-- The record returned by `checkNodeHealth`'s catch branch. -/
def failedHealthData (nodeId : String) (e : String) : HealthData :=
  { nodeId := nodeId
    running := false
    memoryPercent := none
    diskFreeGB := none
    fdPercent := none
    socketsPercent := none
    partitions := none
    alarms := none
    isHealthy := false
    issues := ["Health check failed: " ++ e]
    errorMsg := some e }

/-- The try-block of `RabbitMQService.checkNodeHealth`
(`src/services/rabbitmq.js:86-160`): it can only fail through the
`getNode` HTTP call (`nodeRes`); the `getAlarms` call never rejects. -/
def checkNodeHealthBody (nodeId : String) (nodeRes : Except String NodeInfo)
    (alarmsRes : Except String (List Alarm)) : Except String HealthData := do
  let node ← nodeRes
  let alarms := getAlarms alarmsRes
  let memoryPercent : Nat :=
    if node.mem_limit > 0 then jsRoundDiv (node.mem_used * 100) node.mem_limit else 0
  let diskFreeGB : Nat := jsRoundDiv node.disk_free (1024 * 1024 * 1024)
  let fdPercent : Nat :=
    if node.fd_total > 0 then jsRoundDiv (node.fd_used * 100) node.fd_total else 0
  let socketsPercent : Nat :=
    if node.sockets_total > 0 then jsRoundDiv (node.sockets_used * 100) node.sockets_total else 0
  let nodeAlarms := alarms.filter (fun a => a.node == nodeId)
  let hasPartitions := !node.partitions.isEmpty
  let memoryHigh := memoryPercent > 90
  let diskLow := diskFreeGB < 1
  let fdHigh := fdPercent > 95
  let isHealthy := node.running && !hasPartitions && nodeAlarms.isEmpty
      && !memoryHigh && !diskLow && !fdHigh
  let issues : List String :=
    (if !node.running then ["Node not running"] else [])
    ++ (if hasPartitions then
          ["Partitioned from: " ++ String.intercalate ", " node.partitions] else [])
    ++ (if !nodeAlarms.isEmpty then
          ["Alarms: " ++ String.intercalate ", " (nodeAlarms.map (fun a => a.alarm))] else [])
    ++ (if memoryHigh then ["High memory usage: " ++ toString memoryPercent ++ "%"] else [])
    ++ (if diskLow then ["Low disk space: " ++ toString diskFreeGB ++ "GB"] else [])
    ++ (if fdHigh then ["High file descriptor usage: " ++ toString fdPercent ++ "%"] else [])
  .ok
    { nodeId := nodeId
      running := node.running
      memoryPercent := some memoryPercent
      diskFreeGB := some diskFreeGB
      fdPercent := some fdPercent
      socketsPercent := some socketsPercent
      partitions := some node.partitions
      alarms := some nodeAlarms
      isHealthy := isHealthy
      issues := issues
      errorMsg := none }

/-- `RabbitMQService.checkNodeHealth`: the try-block wrapped in the
universal catch branch — the function never rejects. -/
def checkNodeHealth (nodeId : String) (nodeRes : Except String NodeInfo)
    (alarmsRes : Except String (List Alarm)) : HealthData :=
  match checkNodeHealthBody nodeId nodeRes alarmsRes with
  | .ok h => h
  | .error e => failedHealthData nodeId e

/-! Spec-side formulas for C5, written from the claim's own words over
exact rationals: `round` for the two percentages, `floor` for the disk
gigabytes. -/

/-- Modelled from the spec sentence of C5: `memoryPercent =
round(mem_used / mem_limit * 100)` with `0` when `mem_limit = 0`. -/
def specMemoryPercent (n : NodeInfo) : ℤ :=
  if n.mem_limit = 0 then 0 else round ((n.mem_used : ℚ) / (n.mem_limit : ℚ) * 100)

/-- Modelled from the spec sentence of C5: `diskFreeGB =
floor(disk_free / 2^30)`. -/
def specDiskFreeGBFloor (n : NodeInfo) : ℤ :=
  ⌊(n.disk_free : ℚ) / (2 ^ 30 : ℚ)⌋

/-- What the source actually computes for the disk metric: `Math.round`,
not floor. -/
def specDiskFreeGBRound (n : NodeInfo) : ℤ :=
  round ((n.disk_free : ℚ) / (2 ^ 30 : ℚ))

/-- Modelled from the spec sentence of C5: `fdPercent =
round(fd_used / fd_total * 100)` with `0` when `fd_total = 0`. -/
def specFdPercent (n : NodeInfo) : ℤ :=
  if n.fd_total = 0 then 0 else round ((n.fd_used : ℚ) / (n.fd_total : ℚ) * 100)

/-! ## `RabbitMQService.validateClusterHealth` — the per-node loop -/

/-- The per-node loop of `validateClusterHealth`
(`src/services/rabbitmq.js:326-341`): accumulates the healthy-node count
and the issue strings.  Its `catch` arm is dead code because
`checkNodeHealth` never rejects, so it is not represented. -/
def validateNodesStep (fetchNode : String → Except String NodeInfo)
    (alarmsRes : Except String (List Alarm)) (acc : Nat × List String)
    (tn : TopoNode) : Nat × List String :=
  let h := checkNodeHealth tn.id (fetchNode tn.id) alarmsRes
  if h.isHealthy then (acc.1 + 1, acc.2)
  else (acc.1, acc.2 ++ [tn.name ++ ": " ++ String.intercalate ", " h.issues])

def validateNodesLoop (fetchNode : String → Except String NodeInfo)
    (alarmsRes : Except String (List Alarm)) (nodes : List TopoNode) :
    Nat × List String :=
  nodes.foldl (validateNodesStep fetchNode alarmsRes) (0, [])

/-- A node whose raw counters put every metric comfortably inside the
healthy thresholds. -/
def healthyNode : NodeInfo :=
  { mem_used := 100
    mem_limit := 1000
    disk_free := 10737418240
    disk_free_limit := 0
    fd_used := 10
    fd_total := 1000
    sockets_used := 0
    sockets_total := 1000
    uptime := 1000
    running := true
    partitions := [] }

/-! ## `RabbitMQService.setMaintenanceMode` -/

/-- The acknowledgement record returned by `setMaintenanceMode`. -/
structure MaintAck where
  nodeId : String
  maintenance : Bool
  reason : String
  warning : Option String
  deriving Repr, DecidableEq

/-- `config.getNodeById(nodeId)` succeeds, as a Bool. -/
def nodeInTopo (topo : List TopoNode) (nodeId : String) : Bool :=
  (topo.find? (fun n => n.id == nodeId)).isSome

/-- `RabbitMQService.setMaintenanceMode` (`src/services/rabbitmq.js:244-275`):
throws when the node is not in the topology; otherwise the PUT request's
failure is downgraded to an acknowledgement with a `warning` field.
`httpRes` is the outcome of the PUT. -/
def setMaintenanceMode (topo : List TopoNode) (httpRes : Except String Unit)
    (nodeId : String) (maintenance : Bool) (reason : String) : Except String MaintAck :=
  if nodeInTopo topo nodeId then
    match httpRes with
    | .ok _ => .ok ⟨nodeId, maintenance, reason, none⟩
    | .error _ => .ok ⟨nodeId, maintenance, reason, some "Maintenance mode API not supported"⟩
  else
    .error ("Node not found in topology: " ++ nodeId)

/-! ## `RollingRestartService.processNode` — the per-node sub-machine

The awaited sub-operations (drain, restart, health wait) are abstracted
as `Except` outcomes in `NodeEnv`; the two maintenance-mode toggles and
the failure-cleanup toggle go through `setMaintenanceMode` with their
own HTTP outcomes.  The returned list is the trace of steps attempted,
in order. -/

/-- One attempted step of the per-node sub-machine. -/
inductive PNStep
  | maintOn
  | drainStep
  | restartStep
  | healthWait
  | maintOff
  | maintCleanup
  deriving Repr, DecidableEq

/-- External outcomes seen by one `processNode` run. -/
structure NodeEnv where
  maintOnHttp : Except String Unit
  drainRes : Except String Unit
  restartRes : Except String Unit
  healthRes : Except String Unit
  maintOffHttp : Except String Unit
  cleanupHttp : Except String Unit

/-- The catch block of `processNode` (`health.js:487-500`): attempt
`setMaintenanceMode(node, false, 'Rolling restart failed - cleanup')`;
a cleanup failure is only logged; the original error `e` is re-raised
either way. -/
def cleanupAndRaise (topo : List TopoNode) (node : TopoNode) (env : NodeEnv)
    (trace : List PNStep) (e : String) : Except String Unit × List PNStep :=
  match setMaintenanceMode topo env.cleanupHttp node.id false
      "Rolling restart failed - cleanup" with
  | .ok _ => (Except.error e, trace ++ [.maintCleanup])
  | .error _ => (Except.error e, trace ++ [.maintCleanup])

/-- `RollingRestartService.processNode` (`health.js:445-501`): maintenance
on, drain, restart, health wait, maintenance off, with the universal
catch running the cleanup revert before re-raising. -/
def processNode (topo : List TopoNode) (node : TopoNode) (env : NodeEnv) :
    Except String Unit × List PNStep :=
  match setMaintenanceMode topo env.maintOnHttp node.id true "Rolling restart" with
  | .error e => cleanupAndRaise topo node env [.maintOn] e
  | .ok _ =>
    match env.drainRes with
    | .error e => cleanupAndRaise topo node env [.maintOn, .drainStep] e
    | .ok _ =>
      match env.restartRes with
      | .error e => cleanupAndRaise topo node env [.maintOn, .drainStep, .restartStep] e
      | .ok _ =>
        match env.healthRes with
        | .error e =>
          cleanupAndRaise topo node env [.maintOn, .drainStep, .restartStep, .healthWait] e
        | .ok _ =>
          match setMaintenanceMode topo env.maintOffHttp node.id false
              "Rolling restart completed" with
          | .error e => cleanupAndRaise topo node env
              [.maintOn, .drainStep, .restartStep, .healthWait, .maintOff] e
          | .ok _ =>
            (Except.ok (), [.maintOn, .drainStep, .restartStep, .healthWait, .maintOff])

/-! ## `RollingRestartService.drainConnections` -/

/-- A connection record from `GET /connections`. -/
structure Conn where
  name : String
  state : String
  node : String
  deriving Repr, DecidableEq

/-- `RabbitMQService.getConnectionCount` (`rabbitmq.js:183-194`): counts
the running-state connections; an HTTP failure is swallowed and reported
as `0`. -/
def getConnectionCount (raw : Except String (List Conn)) : Nat :=
  match raw with
  | .ok cs => (cs.filter (fun c => c.state == "running")).length
  | .error _ => 0

/-- How the polling `while` of `drainConnections` ended: all connections
drained, the budget elapsed (`fuel` polls used up), or a poll rejected
and the loop broke out early. -/
inductive DrainExit
  | drained
  | budget (next : Nat)
  | aborted (next : Nat)
  deriving Repr, DecidableEq

/-- The polling `while` of `drainConnections` (`health.js:509-527`).
`countCall i` is the outcome of the `i`-th `getConnectionCount` call;
`fuel` is the number of poll rounds the `connectionDrain` budget
admits. -/
def drainLoop (countCall : Nat → Except String Nat) : Nat → Nat → DrainExit
  | i, 0 => .budget i
  | i, fuel + 1 =>
    match countCall i with
    | .error _ => .aborted (i + 1)
    | .ok n => if n = 0 then .drained else drainLoop countCall (i + 1) fuel

/-- The final-count check of `drainConnections` (`health.js:529-546`):
re-read the count (failure caught and logged), and if connections remain,
force close only under the flag and the `≤ 10` safety cap; a rejection
of the force close is caught by the same `try`. -/
def drainFinalCheck (finalRes : Except String Nat) (forceCloseFlag : Bool)
    (forceCloseRes : Except String Unit) : Except String Unit × Bool :=
  match finalRes with
  | .error _ => (.ok (), false)
  | .ok finalCount =>
    if finalCount > 0 then
      if forceCloseFlag && finalCount ≤ 10 then
        match forceCloseRes with
        | .ok _ => (.ok (), true)
        | .error _ => (.ok (), true)
      else (.ok (), false)
    else (.ok (), false)

/-- `RollingRestartService.drainConnections` (`health.js:503-547`): the
poll loop followed by the final-count check.  Returns the function's
outcome and whether `forceCloseNodeConnections` was invoked.  An early
return (all drained) skips the final check; both the budget and the
abort exits run it. -/
def drainConnections (fuel : Nat) (countCall : Nat → Except String Nat)
    (finalRes : Except String Nat) (forceCloseFlag : Bool)
    (forceCloseRes : Except String Unit) : Except String Unit × Bool :=
  match drainLoop countCall 0 fuel with
  | .drained => (.ok (), false)
  | .budget _ => drainFinalCheck finalRes forceCloseFlag forceCloseRes
  | .aborted _ => drainFinalCheck finalRes forceCloseFlag forceCloseRes

/-! ## `RollingRestartService.waitForNodeHealth` -/

/-- The timeout error raised by `waitForNodeHealth` (`health.js:594`),
with the budget already divided by 1000 into seconds. -/
def healthTimeoutMsg (name : String) (sec : Nat) : String :=
  "Node " ++ name ++ " failed to become healthy within " ++ toString sec ++ " seconds"

/-- Whether the `i`-th health poll observes a healthy node: a rejected
poll observes nothing. -/
def pollHealthy (polls : Nat → Except String HealthData) (i : Nat) : Bool :=
  match polls i with
  | .ok h => h.isHealthy
  | .error _ => false

/-- `RollingRestartService.waitForNodeHealth` (`health.js:568-595`):
polls until a healthy observation, treats a rejected poll as one more
failed round, and raises the timeout error when the `nodeStartup` budget
(`fuel` poll rounds) elapses. -/
def waitForNodeHealth (name : String) (budgetSec : Nat)
    (polls : Nat → Except String HealthData) : Nat → Nat → Except String Unit
  | _, 0 => .error (healthTimeoutMsg name budgetSec)
  | i, fuel + 1 =>
    match polls i with
    | .ok h =>
      if h.isHealthy then .ok ()
      else waitForNodeHealth name budgetSec polls (i + 1) fuel
    | .error _ => waitForNodeHealth name budgetSec polls (i + 1) fuel

/-! ## The orchestrator state machine

`startRollingRestart` (`health.js:326-443`) together with `cancel`
(`health.js:597-615`) as a small-step machine.  A micro-step covers the
synchronous JavaScript executed between two `await` suspension points;
`cancel` may be interleaved between micro-steps, exactly as the
single-threaded event loop allows.  The fields `startedAt`,
`completedAt` and `currentNodeConnections` are omitted (no claim reads
them). -/

/-- The `phase` values of `currentState`. -/
inductive Phase
  | idle
  | preparing
  | maintenance
  | draining
  | restarting
  | validating
  | completed
  | failed
  | cancelled
  deriving Repr, DecidableEq

/-- The orchestrator's mutable state. -/
structure OrchState where
  isActive : Bool
  phase : Phase
  nodeIndex : Nat
  completedCount : Nat
  current : Option String
  errors : List String
  deriving Repr, DecidableEq

/-- The constructor-time state (`health.js:259-275`). -/
def initialOrchState : OrchState := ⟨false, .idle, 0, 0, none, []⟩

/-- Which `await` of the run the loop is suspended at, for the node at
index `i`: the maintenance PUT, the drain, the restart, the
validate-and-revert block (health wait, post-validation pause and
maintenance off hold no state mutation between them), or the
inter-node delay. -/
inductive SubStep
  | maintOnStep
  | drainPhase
  | restartPhase
  | validatePhase
  | interDelay
  deriving Repr, DecidableEq

/-- A machine configuration: the orchestrator state plus the loop's
suspension point (`none` once the run has returned). -/
structure MachineConfig where
  st : OrchState
  pc : Option (Nat × SubStep)
  deriving Repr, DecidableEq

/-- The synchronous prefix of a (non-dry-run, admitted) start: from
`this.isActive = true` (`health.js:354`) to the first `await` inside
`processNode` — `phase = 'preparing'` is overwritten by
`phase = 'maintenance'` with no `await` in between, so `'preparing'` is
never observable.  With no nodes the loop body never runs and the
terminal block executes synchronously. -/
def startConfig (nodes : List String) : MachineConfig :=
  match nodes with
  | [] => ⟨⟨false, .completed, 0, 0, none, []⟩, none⟩
  | n0 :: _ => ⟨⟨true, .maintenance, 0, 0, some n0, []⟩, some (0, .maintOnStep)⟩

/-- The catch-and-finally block of `startRollingRestart`
(`health.js:426-442`): `phase = 'failed'`, push the error, release the
active flag — all synchronous. -/
def failState (s : OrchState) (e : String) : OrchState :=
  ⟨false, .failed, s.nodeIndex, s.completedCount, s.current, s.errors ++ [e]⟩

/-- Resume the loop from its current suspension point: run the
synchronous code up to the next `await` (or to the return).  `env i s`
is the outcome of the operation awaited at node `i`, sub-step `s`
(`none` = resolved, `some e` = rejected with message `e`); on a
rejection the sub-machine's cleanup revert (which mutates no state) and
the outer catch/finally run before control returns. -/
def step (env : Nat → SubStep → Option String) (nodes : List String)
    (cfg : MachineConfig) : MachineConfig :=
  match cfg.pc with
  | none => cfg
  | some (i, s) =>
    match s with
    | .maintOnStep =>
      match env i .maintOnStep with
      | some e => ⟨failState cfg.st e, none⟩
      | none => ⟨{ cfg.st with phase := .draining }, some (i, .drainPhase)⟩
    | .drainPhase =>
      match env i .drainPhase with
      | some e => ⟨failState cfg.st e, none⟩
      | none => ⟨{ cfg.st with phase := .restarting }, some (i, .restartPhase)⟩
    | .restartPhase =>
      match env i .restartPhase with
      | some e => ⟨failState cfg.st e, none⟩
      | none => ⟨{ cfg.st with phase := .validating }, some (i, .validatePhase)⟩
    | .validatePhase =>
      match env i .validatePhase with
      | some e => ⟨failState cfg.st e, none⟩
      | none =>
        if i + 1 < nodes.length then
          ⟨{ cfg.st with completedCount := i + 1 }, some (i, .interDelay)⟩
        else
          ⟨⟨false, .completed, cfg.st.nodeIndex, i + 1, none, cfg.st.errors⟩, none⟩
    | .interDelay =>
      match nodes.get? (i + 1) with
      | some nm =>
        ⟨{ cfg.st with nodeIndex := i + 1, current := some nm, phase := .maintenance },
          some (i + 1, .maintOnStep)⟩
      | none => ⟨cfg.st, none⟩

/-- `RollingRestartService.cancel` (`health.js:597-615`): sets
`phase = 'cancelled'`, pushes the cancellation message, clears the
active flag, emits — and does nothing to the running loop. -/
def cancelState (s : OrchState) : OrchState :=
  ⟨false, .cancelled, s.nodeIndex, s.completedCount, s.current,
    s.errors ++ ["Rolling restart cancelled by user"]⟩

/-- An interleaving event: the loop resumes from its `await`, or a
cancel request arrives (a cancel while inactive throws to its HTTP
caller and leaves the state unchanged). -/
inductive OrchEvent
  | tick
  | cancelReq
  deriving Repr, DecidableEq

/-- Apply one interleaving event.  The crucial fidelity point: a cancel
leaves `pc` untouched — `cancel()` does not stop the loop, and the loop
never reads a cancellation flag. -/
def applyEvent (env : Nat → SubStep → Option String) (nodes : List String)
    (cfg : MachineConfig) : OrchEvent → MachineConfig
  | .tick => step env nodes cfg
  | .cancelReq => if cfg.st.isActive then ⟨cancelState cfg.st, cfg.pc⟩ else cfg

/-- Drive the machine through a list of interleaving events. -/
def runEvents (env : Nat → SubStep → Option String) (nodes : List String)
    (cfg : MachineConfig) (evs : List OrchEvent) : MachineConfig :=
  evs.foldl (applyEvent env nodes) cfg

/-- The four phases equivalent to "no restart in flight" in spec
invariant 1. -/
def phaseTerminalOrIdle : Phase → Bool
  | .idle => true
  | .completed => true
  | .failed => true
  | .cancelled => true
  | _ => false

/-- Spec invariant 1: `isActive ⇔ phase ∉ {idle, completed, failed,
cancelled}`. -/
def activeInv (s : OrchState) : Bool :=
  s.isActive == !phaseTerminalOrIdle s.phase

/-- The inductive strengthening: the invariant holds and, while the loop
is suspended mid-run, the state is active in a non-terminal phase. -/
def goodCfg (cfg : MachineConfig) : Bool :=
  activeInv cfg.st &&
    (match cfg.pc with
     | none => true
     | some _ => cfg.st.isActive && !phaseTerminalOrIdle cfg.st.phase)

/-! ## `startRollingRestart` entry: admission and dry run -/

/-- The record returned by a dry run (`health.js:346-351`). -/
structure DryRunResult where
  dryRun : Bool
  nodes : List String
  estimatedDuration : String
  message : String
  deriving Repr, DecidableEq

/-- The synchronous decision prefix of `startRollingRestart`
(`health.js:326-367`): reject a second start, reject on failed
admission, return the dry-run record without touching state, or
activate (handing over to the loop machine at `startConfig`).
`canRestart`/`reasons` are the admission verdict, `nodeNames` the
restart-ordered node names. -/
def startRollingRestartEntry (s : OrchState) (canRestart : Bool) (reasons : List String)
    (nodeNames : List String) (isDryRun : Bool) :
    Except String (Option DryRunResult) × OrchState :=
  if s.isActive then (.error "Rolling restart already in progress", s)
  else if !canRestart then
    (.error ("Cannot start rolling restart: " ++ String.intercalate ", " reasons), s)
  else if isDryRun then
    (.ok (some ⟨true, nodeNames, toString (nodeNames.length * 4) ++ " minutes",
        "Dry run completed - restart would proceed"⟩), s)
  else (.ok none, (startConfig nodeNames).st)

/-! ## The restarting phase: placeholder vs `NodeService.restartNode` -/

/-- One SSH command issued through `NodeService.executeCommand`: the
command string, whether sudo is requested, and the per-command timeout in
milliseconds (60000 when the caller passes none). -/
structure SshCall where
  cmd : String
  useSudo : Bool
  timeoutMs : Nat
  deriving Repr, DecidableEq

/-- `RollingRestartService.restartNode` (`health.js:549-566`): the body
only logs and awaits a 3-second delay — the `nodeService.restartNode`
call is commented out.  No SSH command is issued and the step always
resolves. -/
def restartNodePlaceholder : Except String Unit × List SshCall :=
  (Except.ok (), [])

/-- Whether `sub` starts `l`, JavaScript-style character comparison. -/
def startsWithChars : List Char → List Char → Bool
  | _, [] => true
  | [], _ :: _ => false
  | a :: as, b :: bs => a == b && startsWithChars as bs

/-- Whether `sub` occurs contiguously in the list. -/
def hasSubstrChars (sub : List Char) : List Char → Bool
  | [] => startsWithChars [] sub
  | a :: as => startsWithChars (a :: as) sub || hasSubstrChars sub as

/-- JavaScript `String.prototype.includes`. -/
def jsIncludes (s sub : String) : Bool :=
  hasSubstrChars sub.toList s.toList

/-- The status probe with the `|| echo "inactive"` fallback
(`part_002:103,116`). -/
def svcIsActiveOrEcho : SshCall :=
  ⟨"systemctl is-active rabbitmq-server || echo \"inactive\"", true, 60000⟩

/-- Graceful stop with its 30 s deadline (`part_002:107-110`). -/
def svcStop : SshCall := ⟨"systemctl stop rabbitmq-server", true, 30000⟩

/-- Force kill (`part_002:119`). -/
def svcKill : SshCall := ⟨"systemctl kill rabbitmq-server", true, 60000⟩

/-- Start with its 45 s deadline (`part_002:125-128`). -/
def svcStart : SshCall := ⟨"systemctl start rabbitmq-server", true, 45000⟩

/-- Strict status re-check (`part_002:135`). -/
def svcIsActive : SshCall := ⟨"systemctl is-active rabbitmq-server", true, 60000⟩

/-- Best-effort broker health probe with 30 s deadline
(`part_002:143-146`). -/
def svcHealthCheck : SshCall := ⟨"rabbitmqctl node_health_check", true, 30000⟩

/-- The outer catch wrapper of `NodeService.restartNode`
(`part_002:156`). -/
def restartFailMsg (host e : String) : String :=
  "RabbitMQ restart failed on " ++ host ++ ": " ++ e

/-- The tail of `NodeService.restartNode` from `systemctl start`
onwards (`part_002:123-150`): start, wait 10 s, strict re-check (fail
the node when the output does not contain `active`), then the
best-effort health probe whose failure is logged but non-fatal.
`exec k` is the outcome of the `k`-th `executeCommand` of the whole
restart; `trace` the commands already issued. -/
def restartTail (host : String) (exec : Nat → Except String String) (k : Nat)
    (trace : List SshCall) : Except String Unit × List SshCall :=
  match exec k with
  | .error e => (.error (restartFailMsg host e), trace ++ [svcStart])
  | .ok _ =>
    match exec (k + 1) with
    | .error e => (.error (restartFailMsg host e), trace ++ [svcStart, svcIsActive])
    | .ok startStatus =>
      if jsIncludes startStatus "active" then
        match exec (k + 2) with
        | .ok _ => (.ok (), trace ++ [svcStart, svcIsActive, svcHealthCheck])
        | .error _ => (.ok (), trace ++ [svcStart, svcIsActive, svcHealthCheck])
      else
        (.error (restartFailMsg host ("RabbitMQ failed to start properly: " ++ startStatus)),
          trace ++ [svcStart, svcIsActive])

/-- `NodeService.restartNode` (`src/unnamed/part_002:96-158`): status
probe; graceful stop (30 s deadline); 3 s pause; status re-check, and
when the output still contains `active`, force kill plus a 2 s pause;
then the start tail.  Any command failure propagates through the outer
catch wrapped in `restartFailMsg`. -/
def nodeServiceRestartNode (host : String) (exec : Nat → Except String String) :
    Except String Unit × List SshCall :=
  match exec 0 with
  | .error e => (.error (restartFailMsg host e), [svcIsActiveOrEcho])
  | .ok _ =>
    match exec 1 with
    | .error e => (.error (restartFailMsg host e), [svcIsActiveOrEcho, svcStop])
    | .ok _ =>
      match exec 2 with
      | .error e =>
        (.error (restartFailMsg host e), [svcIsActiveOrEcho, svcStop, svcIsActiveOrEcho])
      | .ok stopStatus =>
        if jsIncludes stopStatus "active" then
          match exec 3 with
          | .error e => (.error (restartFailMsg host e),
              [svcIsActiveOrEcho, svcStop, svcIsActiveOrEcho, svcKill])
          | .ok _ => restartTail host exec 4
              [svcIsActiveOrEcho, svcStop, svcIsActiveOrEcho, svcKill]
        else
          restartTail host exec 3 [svcIsActiveOrEcho, svcStop, svcIsActiveOrEcho]

/-- An SSH oracle for a restart in which the service is still active
after the graceful stop, so the kill branch fires, and the node comes
back healthy. -/
def stubbornRestartOracle : Nat → Except String String
  | 0 => .ok "active"
  | 1 => .ok ""
  | 2 => .ok "active"
  | 3 => .ok ""
  | 4 => .ok ""
  | 5 => .ok "active"
  | _ => .ok "ok"

/-- A node whose free disk is exactly 1.5 GiB: `Math.round` and `floor`
disagree there. -/
def diskBoundaryNode : NodeInfo :=
  { mem_used := 0
    mem_limit := 1024
    disk_free := 1610612736
    disk_free_limit := 0
    fd_used := 0
    fd_total := 1024
    sockets_used := 0
    sockets_total := 1024
    uptime := 0
    running := true
    partitions := [] }

end Rab

/-- `jsRoundDiv` agrees with Mathlib's `round` (round half up) on exact
rational division. -/
theorem Rab.jsRoundDiv_eq_round (num den : Nat) (h : 0 < den) :
    (jsRoundDiv num den : ℤ) = round ((num : ℚ) / (den : ℚ)) := by
  have hden : ((den : ℚ)) ≠ 0 := by exact_mod_cast h.ne'
  have h2den : ((2 * den : ℕ) : ℚ) ≠ 0 := by
    push_cast
    positivity
  have hx : (num : ℚ) / (den : ℚ) + 1 / 2
      = ((2 * num + den : ℕ) : ℚ) / ((2 * den : ℕ) : ℚ) := by
    field_simp
    ring
  rw [round_eq, hx]
  have hfl : ⌊(((2 * num + den : ℕ) : ℤ) : ℚ) / ((2 * den : ℕ) : ℚ)⌋
      = ((2 * num + den : ℕ) : ℤ) / ((2 * den : ℕ) : ℤ) :=
    Rat.floor_intCast_div_natCast ((2 * num + den : ℕ) : ℤ) (2 * den)
  rw [show (((2 * num + den : ℕ) : ℚ)) = (((2 * num + den : ℕ) : ℤ) : ℚ) by push_cast; ring] at *
  rw [hfl]
  unfold jsRoundDiv
  omega

/-- The spec's floored disk metric evaluates to 1 GiB on the 1.5 GiB
boundary node. -/
theorem Rab.disk_boundary_floor : Rab.specDiskFreeGBFloor Rab.diskBoundaryNode = 1 := by
  unfold Rab.specDiskFreeGBFloor Rab.diskBoundaryNode
  rw [show ((1610612736 : ℕ) : ℚ) = (((1610612736 : ℤ)) : ℚ) by norm_num]
  rw [show ((2 : ℚ) ^ 30) = (((2 ^ 30 : ℕ)) : ℚ) by norm_num]
  rw [Rat.floor_intCast_div_natCast]
  norm_num

/-- C5, counterexample: at a node with exactly 1.5 GiB of free disk the
code computes `diskFreeGB = 2` (`Math.round`), while the claim's
`floor(disk_free / 2^30)` is `1` — the claim as stated is false. -/
theorem C5_diskFreeGB_counterexample :
    (Rab.checkNodeHealth "n1" (Except.ok Rab.diskBoundaryNode) (Except.ok [])).diskFreeGB.map
        (fun m => (m : ℤ))
      ≠ some (Rab.specDiskFreeGBFloor Rab.diskBoundaryNode) := by
  have h1 : (Rab.checkNodeHealth "n1" (Except.ok Rab.diskBoundaryNode)
      (Except.ok [])).diskFreeGB = some 2 := rfl
  rw [h1, Rab.disk_boundary_floor]
  decide

/-- C5, amended: the health evaluation computes
`memoryPercent = round(mem_used / mem_limit * 100)` (0 when the limit is
0), `fdPercent = round(fd_used / fd_total * 100)` (0 when the total is
0), and `diskFreeGB = round(disk_free / 2^30)` — rounded, not floored. -/
theorem C5_health_metrics (nid : String) (n : Rab.NodeInfo) (al : List Rab.Alarm) :
    (∃ m, (Rab.checkNodeHealth nid (Except.ok n) (Except.ok al)).memoryPercent = some m
        ∧ (m : ℤ) = Rab.specMemoryPercent n)
    ∧ (∃ d, (Rab.checkNodeHealth nid (Except.ok n) (Except.ok al)).diskFreeGB = some d
        ∧ (d : ℤ) = Rab.specDiskFreeGBRound n)
    ∧ (∃ f, (Rab.checkNodeHealth nid (Except.ok n) (Except.ok al)).fdPercent = some f
        ∧ (f : ℤ) = Rab.specFdPercent n) := by
  refine ⟨?_, ?_, ?_⟩
  · refine ⟨if n.mem_limit > 0 then Rab.jsRoundDiv (n.mem_used * 100) n.mem_limit else 0,
      rfl, ?_⟩
    by_cases hl : n.mem_limit = 0
    · simp [hl, Rab.specMemoryPercent]
    · have hpos : 0 < n.mem_limit := Nat.pos_of_ne_zero hl
      rw [if_pos hpos, Rab.specMemoryPercent, if_neg hl, Rab.jsRoundDiv_eq_round _ _ hpos]
      congr 1
      push_cast
      ring
  · refine ⟨Rab.jsRoundDiv n.disk_free (1024 * 1024 * 1024), rfl, ?_⟩
    rw [Rab.specDiskFreeGBRound, Rab.jsRoundDiv_eq_round _ _ (by norm_num)]
    norm_num
  · refine ⟨if n.fd_total > 0 then Rab.jsRoundDiv (n.fd_used * 100) n.fd_total else 0,
      rfl, ?_⟩
    by_cases hl : n.fd_total = 0
    · simp [hl, Rab.specFdPercent]
    · have hpos : 0 < n.fd_total := Nat.pos_of_ne_zero hl
      rw [if_pos hpos, Rab.specFdPercent, if_neg hl, Rab.jsRoundDiv_eq_round _ _ hpos]
      congr 1
      push_cast
      ring



/-- The healthy-node counter of the validation loop counts exactly the
nodes whose health record is healthy, whatever the starting
accumulator. -/
theorem validateNodesLoop_count_aux (fetchNode : String → Except String Rab.NodeInfo)
    (alarmsRes : Except String (List Rab.Alarm)) :
    ∀ (nodes : List Rab.TopoNode) (acc : Nat × List String),
      (nodes.foldl (Rab.validateNodesStep fetchNode alarmsRes) acc).1
        = acc.1 + (nodes.filter
            (fun tn =>
              (Rab.checkNodeHealth tn.id (fetchNode tn.id) alarmsRes).isHealthy)).length := by
  intro nodes
  induction nodes with
  | nil => intro acc; simp
  | cons tn rest ih =>
    intro acc
    simp only [List.foldl_cons, List.filter_cons]
    by_cases h : (Rab.checkNodeHealth tn.id (fetchNode tn.id) alarmsRes).isHealthy = true
    · simp only [Rab.validateNodesStep, h, if_true, ih, List.length_cons]
      omega
    · simp only [Rab.validateNodesStep, h, if_false, ih]
      simp [h]

/-- C10 (amended): `checkNodeHealth` never rejects; when fetching the
node info fails it returns the failure record (`running = false`,
`isHealthy = false`, a single issue `Health check failed: <msg>`); a
failure fetching alarms is swallowed by `getAlarms` into an empty list
instead; and the cluster validator counts exactly the nodes whose health
record says healthy, so an unreachable node is counted as unhealthy. -/
theorem C10_checkNodeHealth_total (nid e : String)
    (alarmsRes : Except String (List Rab.Alarm))
    (fetchNode : String → Except String Rab.NodeInfo) (nodes : List Rab.TopoNode) :
    (Rab.checkNodeHealth nid (Except.error e) alarmsRes).running = false
    ∧ (Rab.checkNodeHealth nid (Except.error e) alarmsRes).isHealthy = false
    ∧ (Rab.checkNodeHealth nid (Except.error e) alarmsRes).issues
        = ["Health check failed: " ++ e]
    ∧ (Rab.validateNodesLoop fetchNode alarmsRes nodes).1
        = (nodes.filter
            (fun tn =>
              (Rab.checkNodeHealth tn.id (fetchNode tn.id) alarmsRes).isHealthy)).length := by
  refine ⟨rfl, rfl, rfl, ?_⟩
  have h := validateNodesLoop_count_aux fetchNode alarmsRes nodes (0, [])
  simpa [Rab.validateNodesLoop] using h

/-- C10, counterexample: when the node-info fetch succeeds on a healthy
node but the alarms fetch fails, `checkNodeHealth` does not return the
claimed failure record — it reports `running = true`, `isHealthy = true`
and no issues, because `getAlarms` swallows the error into `[]`. -/
theorem C10_alarms_failure_counterexample :
    (Rab.checkNodeHealth "n1" (Except.ok Rab.healthyNode)
        (Except.error "connect ECONNREFUSED")).running = true
    ∧ (Rab.checkNodeHealth "n1" (Except.ok Rab.healthyNode)
        (Except.error "connect ECONNREFUSED")).isHealthy = true
    ∧ (Rab.checkNodeHealth "n1" (Except.ok Rab.healthyNode)
        (Except.error "connect ECONNREFUSED")).issues = [] :=
  ⟨rfl, by decide, by decide⟩

/-- C2: if any sub-machine step after the maintenance-mode enable
throws, `processNode` attempts the maintenance revert and re-raises the
original error; the cleanup call's own outcome never replaces it. -/
theorem C2_cleanup_preserves_error (topo : List Rab.TopoNode) (node : Rab.TopoNode)
    (env : Rab.NodeEnv) (e : String)
    (htopo : Rab.nodeInTopo topo node.id = true)
    (hfail : env.drainRes = Except.error e
      ∨ (env.drainRes = Except.ok () ∧ env.restartRes = Except.error e)
      ∨ (env.drainRes = Except.ok () ∧ env.restartRes = Except.ok ()
          ∧ env.healthRes = Except.error e)) :
    (Rab.processNode topo node env).1 = Except.error e
    ∧ Rab.PNStep.maintCleanup ∈ (Rab.processNode topo node env).2 := by
  rcases hfail with h1 | ⟨h1, h2⟩ | ⟨h1, h2, h3⟩
  · cases hm : env.maintOnHttp <;> cases hc : env.cleanupHttp <;>
      simp [Rab.processNode, Rab.cleanupAndRaise, Rab.setMaintenanceMode, htopo, hm, hc, h1]
  · cases hm : env.maintOnHttp <;> cases hc : env.cleanupHttp <;>
      simp [Rab.processNode, Rab.cleanupAndRaise, Rab.setMaintenanceMode, htopo, hm, hc,
        h1, h2]
  · cases hm : env.maintOnHttp <;> cases hc : env.cleanupHttp <;>
      simp [Rab.processNode, Rab.cleanupAndRaise, Rab.setMaintenanceMode, htopo, hm, hc,
        h1, h2, h3]

/-- C2, witness: a concrete run whose health wait fails. -/
theorem C2_cleanup_preserves_error_witness :
    Rab.nodeInTopo [⟨"n1", "a", 1⟩] (Rab.TopoNode.id ⟨"n1", "a", 1⟩) = true
    ∧ ((Rab.processNode [⟨"n1", "a", 1⟩] ⟨"n1", "a", 1⟩
          ⟨Except.ok (), Except.ok (), Except.ok (),
            Except.error "Node a failed to become healthy within 120 seconds",
            Except.ok (), Except.error "cleanup http down"⟩).1
        = Except.error "Node a failed to become healthy within 120 seconds"
      ∧ Rab.PNStep.maintCleanup ∈ (Rab.processNode [⟨"n1", "a", 1⟩] ⟨"n1", "a", 1⟩
          ⟨Except.ok (), Except.ok (), Except.ok (),
            Except.error "Node a failed to become healthy within 120 seconds",
            Except.ok (), Except.error "cleanup http down"⟩).2) :=
  ⟨by decide, C2_cleanup_preserves_error _ _ _ _ (by decide)
    (Or.inr (Or.inr ⟨rfl, rfl, rfl⟩))⟩

/-- C8: for a node present in the topology, a failing maintenance-mode
PUT does not throw — it yields an acknowledgement carrying the warning
field — and the sub-machine proceeds past the preparing step into the
drain step. -/
theorem C8_maintenance_error_nonfatal (topo : List Rab.TopoNode) (node : Rab.TopoNode)
    (env : Rab.NodeEnv) (e : String)
    (htopo : Rab.nodeInTopo topo node.id = true)
    (hhttp : env.maintOnHttp = Except.error e) :
    (∃ ack, Rab.setMaintenanceMode topo env.maintOnHttp node.id true "Rolling restart"
          = Except.ok ack
        ∧ ack.warning = some "Maintenance mode API not supported")
    ∧ Rab.PNStep.drainStep ∈ (Rab.processNode topo node env).2 := by
  have hset : Rab.setMaintenanceMode topo env.maintOnHttp node.id true "Rolling restart"
      = Except.ok ⟨node.id, true, "Rolling restart",
          some "Maintenance mode API not supported"⟩ := by
    simp [Rab.setMaintenanceMode, htopo, hhttp]
  refine ⟨⟨_, hset, rfl⟩, ?_⟩
  cases hd : env.drainRes <;> cases hr : env.restartRes <;> cases hh : env.healthRes <;>
    cases hmo : env.maintOffHttp <;> cases hc : env.cleanupHttp <;>
      simp [Rab.processNode, Rab.cleanupAndRaise, Rab.setMaintenanceMode, htopo, hhttp,
        hd, hr, hh, hmo, hc]

/-- C8, witness: a concrete topology node whose maintenance PUT is
refused by the broker. -/
theorem C8_maintenance_error_nonfatal_witness :
    (Rab.nodeInTopo [⟨"n1", "a", 1⟩] (Rab.TopoNode.id ⟨"n1", "a", 1⟩) = true
      ∧ (⟨Except.error "404 not found", Except.ok (), Except.ok (), Except.ok (),
          Except.ok (), Except.ok ()⟩ : Rab.NodeEnv).maintOnHttp
        = Except.error "404 not found")
    ∧ ((∃ ack, Rab.setMaintenanceMode [⟨"n1", "a", 1⟩]
            (Rab.NodeEnv.maintOnHttp ⟨Except.error "404 not found", Except.ok (),
              Except.ok (), Except.ok (), Except.ok (), Except.ok ()⟩)
            (Rab.TopoNode.id ⟨"n1", "a", 1⟩) true "Rolling restart"
          = Except.ok ack
        ∧ ack.warning = some "Maintenance mode API not supported")
      ∧ Rab.PNStep.drainStep ∈ (Rab.processNode [⟨"n1", "a", 1⟩] ⟨"n1", "a", 1⟩
          ⟨Except.error "404 not found", Except.ok (), Except.ok (), Except.ok (),
            Except.ok (), Except.ok ()⟩).2) :=
  ⟨⟨by decide, rfl⟩, C8_maintenance_error_nonfatal _ _ _ _ (by decide) rfl⟩

/-- The final check of the drain step always resolves. -/
theorem drainFinalCheck_ok (finalRes : Except String Nat) (flag : Bool)
    (fcRes : Except String Unit) :
    (Rab.drainFinalCheck finalRes flag fcRes).1 = Except.ok () := by
  unfold Rab.drainFinalCheck
  rcases finalRes with e | fc
  · rfl
  · dsimp only
    by_cases h0 : fc > 0
    · rw [if_pos h0]
      by_cases hf : (flag && decide (fc ≤ 10)) = true
      · rw [if_pos hf]
        rcases fcRes with e | u <;> rfl
      · rw [if_neg hf]
    · rw [if_neg h0]

/-- The final check invokes the force close exactly under the flag and
the safety cap, when connections remain. -/
theorem drainFinalCheck_invoked (fc : Nat) (flag : Bool) (fcRes : Except String Unit)
    (h : 0 < fc) :
    ((Rab.drainFinalCheck (Except.ok fc) flag fcRes).2 = true ↔ flag = true ∧ fc ≤ 10) := by
  unfold Rab.drainFinalCheck
  dsimp only
  rw [if_pos h]
  by_cases hf : (flag && decide (fc ≤ 10)) = true
  · rw [if_pos hf]
    rcases fcRes with e | u <;>
      simpa [Bool.and_eq_true, decide_eq_true_iff] using hf
  · rw [if_neg hf]
    simp only [Bool.and_eq_true, decide_eq_true_iff] at hf
    simpa using hf

/-- When every poll inside the budget sees a positive connection count,
the drain loop exhausts the budget. -/
theorem drainLoop_budget_of_pos (countCall : Nat → Except String Nat) :
    ∀ (fuel i : Nat), (∀ j, j < fuel → ∃ n, countCall (i + j) = Except.ok (n + 1)) →
      Rab.drainLoop countCall i fuel = Rab.DrainExit.budget (i + fuel) := by
  intro fuel
  induction fuel with
  | zero =>
    intro i _
    simp [Rab.drainLoop]
  | succ f ih =>
    intro i h
    obtain ⟨n, hn⟩ := h 0 (Nat.succ_pos f)
    rw [Nat.add_zero] at hn
    simp only [Rab.drainLoop, hn]
    rw [if_neg (Nat.succ_ne_zero n)]
    have hrec := ih (i + 1) (fun j hj => by
      obtain ⟨m, hm⟩ := h (j + 1) (Nat.succ_lt_succ hj)
      refine ⟨m, ?_⟩
      rw [show i + 1 + j = i + (j + 1) by omega]
      exact hm)
    rw [hrec]
    congr 1
    omega

/-- C6: the drain step never raises an error, and when the budget
elapses with a positive final count, the force close is invoked exactly
when the flag is enabled and the count is within the safety cap of
10. -/
theorem C6_drain_nonfatal (fuel : Nat) (countCall : Nat → Except String Nat)
    (finalRes : Except String Nat) (forceCloseFlag : Bool)
    (forceCloseRes : Except String Unit) (fc : Nat) :
    (Rab.drainConnections fuel countCall finalRes forceCloseFlag forceCloseRes).1
        = Except.ok ()
    ∧ ((∀ j, j < fuel → ∃ n, countCall j = Except.ok (n + 1)) →
        finalRes = Except.ok fc → 0 < fc →
          ((Rab.drainConnections fuel countCall finalRes forceCloseFlag forceCloseRes).2
              = true
            ↔ forceCloseFlag = true ∧ fc ≤ 10)) := by
  constructor
  · unfold Rab.drainConnections
    cases Rab.drainLoop countCall 0 fuel with
    | drained => rfl
    | budget i => exact drainFinalCheck_ok finalRes forceCloseFlag forceCloseRes
    | aborted i => exact drainFinalCheck_ok finalRes forceCloseFlag forceCloseRes
  · intro hloop hfinal hpos
    have hexit : Rab.drainLoop countCall 0 fuel = Rab.DrainExit.budget (0 + fuel) :=
      drainLoop_budget_of_pos countCall fuel 0 (fun j hj => by
        obtain ⟨n, hn⟩ := hloop j hj
        exact ⟨n, by rwa [Nat.zero_add]⟩)
    unfold Rab.drainConnections
    rw [hexit, hfinal]
    exact drainFinalCheck_invoked fc forceCloseFlag forceCloseRes hpos

/-- C6, witness: one poll round seeing 5 connections, final count 5,
force close enabled. -/
theorem C6_drain_nonfatal_witness :
    ((∀ j, j < 1 → ∃ n, (fun _ => (Except.ok 5 : Except String Nat)) j = Except.ok (n + 1))
      ∧ (Except.ok 5 : Except String Nat) = Except.ok 5 ∧ 0 < 5)
    ∧ ((Rab.drainConnections 1 (fun _ => Except.ok 5) (Except.ok 5) true (Except.ok ())).1
          = Except.ok ()
      ∧ ((Rab.drainConnections 1 (fun _ => Except.ok 5) (Except.ok 5) true
            (Except.ok ())).2 = true
          ↔ true = true ∧ 5 ≤ 10)) :=
  ⟨⟨fun _ _ => ⟨4, rfl⟩, rfl, by decide⟩,
    ⟨(C6_drain_nonfatal 1 (fun _ => Except.ok 5) (Except.ok 5) true (Except.ok ()) 5).1,
      (C6_drain_nonfatal 1 (fun _ => Except.ok 5) (Except.ok 5) true
        (Except.ok ()) 5).2 (fun _ _ => ⟨4, rfl⟩) rfl (by decide)⟩⟩

/-- Unfolding of one successful poll round of the health wait. -/
theorem waitForNodeHealth_succ_ok (name : String) (budgetSec : Nat)
    (polls : Nat → Except String Rab.HealthData) (i f : Nat) (hd : Rab.HealthData)
    (hp : polls i = Except.ok hd) :
    Rab.waitForNodeHealth name budgetSec polls i (f + 1)
      = if hd.isHealthy then Except.ok ()
        else Rab.waitForNodeHealth name budgetSec polls (i + 1) f := by
  rw [Rab.waitForNodeHealth, hp]

/-- Unfolding of one rejected poll round of the health wait. -/
theorem waitForNodeHealth_succ_err (name : String) (budgetSec : Nat)
    (polls : Nat → Except String Rab.HealthData) (i f : Nat) (e : String)
    (hp : polls i = Except.error e) :
    Rab.waitForNodeHealth name budgetSec polls i (f + 1)
      = Rab.waitForNodeHealth name budgetSec polls (i + 1) f := by
  rw [Rab.waitForNodeHealth, hp]

/-- Success of the health wait from start index `i` is exactly a healthy
observation within the remaining fuel. -/
theorem waitForNodeHealth_ok_iff (name : String) (budgetSec : Nat)
    (polls : Nat → Except String Rab.HealthData) :
    ∀ (fuel i : Nat),
      (Rab.waitForNodeHealth name budgetSec polls i fuel = Except.ok ()
        ↔ ∃ j, j < fuel ∧ Rab.pollHealthy polls (i + j) = true) := by
  intro fuel
  induction fuel with
  | zero =>
    intro i
    constructor
    · intro h
      exact absurd h (by simp [Rab.waitForNodeHealth])
    · rintro ⟨j, hj, _⟩
      omega
  | succ f ih =>
    intro i
    cases hp : polls i with
    | ok hd =>
      rw [waitForNodeHealth_succ_ok name budgetSec polls i f hd hp]
      by_cases hh : hd.isHealthy
      · rw [if_pos hh]
        constructor
        · intro _
          exact ⟨0, Nat.succ_pos f, by simp [Rab.pollHealthy, hp, hh]⟩
        · intro _
          rfl
      · rw [if_neg hh, ih (i + 1)]
        constructor
        · rintro ⟨j, hj, hjh⟩
          refine ⟨j + 1, by omega, ?_⟩
          rwa [show i + (j + 1) = i + 1 + j by omega]
        · rintro ⟨j, hj, hjh⟩
          cases j with
          | zero =>
            rw [Nat.add_zero] at hjh
            exact absurd hjh (by simp [Rab.pollHealthy, hp, hh])
          | succ j' =>
            refine ⟨j', by omega, ?_⟩
            rwa [show i + 1 + j' = i + (j' + 1) by omega]
    | error e =>
      rw [waitForNodeHealth_succ_err name budgetSec polls i f e hp, ih (i + 1)]
      constructor
      · rintro ⟨j, hj, hjh⟩
        refine ⟨j + 1, by omega, ?_⟩
        rwa [show i + (j + 1) = i + 1 + j by omega]
      · rintro ⟨j, hj, hjh⟩
        cases j with
        | zero =>
          rw [Nat.add_zero] at hjh
          exact absurd hjh (by simp [Rab.pollHealthy, hp])
        | succ j' =>
          refine ⟨j', by omega, ?_⟩
          rwa [show i + 1 + j' = i + (j' + 1) by omega]

/-- With no healthy observation in the budget, the health wait raises
the timeout error. -/
theorem waitForNodeHealth_timeout (name : String) (budgetSec : Nat)
    (polls : Nat → Except String Rab.HealthData) :
    ∀ (fuel i : Nat), (∀ j, j < fuel → Rab.pollHealthy polls (i + j) = false) →
      Rab.waitForNodeHealth name budgetSec polls i fuel
        = Except.error (Rab.healthTimeoutMsg name budgetSec) := by
  intro fuel
  induction fuel with
  | zero =>
    intro i _
    rfl
  | succ f ih =>
    intro i h
    have h0 := h 0 (Nat.succ_pos f)
    rw [Nat.add_zero] at h0
    have hrest : ∀ j, j < f → Rab.pollHealthy polls (i + 1 + j) = false := by
      intro j hj
      have := h (j + 1) (Nat.succ_lt_succ hj)
      rwa [show i + (j + 1) = i + 1 + j by omega] at this
    cases hp : polls i with
    | ok hd =>
      have hh : hd.isHealthy = false := by
        simpa [Rab.pollHealthy, hp] using h0
      rw [waitForNodeHealth_succ_ok name budgetSec polls i f hd hp, hh]
      simpa using ih (i + 1) hrest
    | error e =>
      rw [waitForNodeHealth_succ_err name budgetSec polls i f e hp]
      exact ih (i + 1) hrest

theorem C7_health_wait (name : String) (budgetSec : Nat)
    (polls : Nat → Except String Rab.HealthData) (fuel : Nat) :
    (Rab.waitForNodeHealth name budgetSec polls 0 fuel = Except.ok ()
      ↔ ∃ j, j < fuel ∧ Rab.pollHealthy polls j = true)
    ∧ ((∀ j, j < fuel → Rab.pollHealthy polls j = false) →
        Rab.waitForNodeHealth name budgetSec polls 0 fuel
          = Except.error (Rab.healthTimeoutMsg name budgetSec)) := by
  constructor
  · rw [waitForNodeHealth_ok_iff name budgetSec polls fuel 0]
    constructor
    · rintro ⟨j, hj, hjh⟩
      exact ⟨j, hj, by rwa [Nat.zero_add] at hjh⟩
    · rintro ⟨j, hj, hjh⟩
      exact ⟨j, hj, by rwa [Nat.zero_add]⟩
  · intro h
    exact waitForNodeHealth_timeout name budgetSec polls fuel 0
      (fun j hj => by rw [Nat.zero_add]; exact h j hj)

/-- C7, witness: two rejected polls on node `b` with a 120 s budget. -/
theorem C7_health_wait_witness :
    (∀ j, j < 2 → Rab.pollHealthy (fun _ => Except.error "503") j = false)
    ∧ Rab.waitForNodeHealth "b" 120 (fun _ => Except.error "503") 0 2
        = Except.error (Rab.healthTimeoutMsg "b" 120) :=
  ⟨by decide,
    (C7_health_wait "b" 120 (fun _ => Except.error "503") 2).2 (by decide)⟩

/-- A mid-run suspension point is good exactly when the state is active
in a non-terminal phase. -/
theorem goodCfg_some_iff (st : Rab.OrchState) (i : Nat) (s : Rab.SubStep) :
    Rab.goodCfg ⟨st, some (i, s)⟩ = true
      ↔ (st.isActive = true ∧ Rab.phaseTerminalOrIdle st.phase = false) := by
  cases hA : st.isActive <;> cases hP : Rab.phaseTerminalOrIdle st.phase <;>
    simp [Rab.goodCfg, Rab.activeInv, hA, hP]

/-- A good configuration satisfies spec invariant 1. -/
theorem goodCfg_activeInv (cfg : Rab.MachineConfig) (h : Rab.goodCfg cfg = true) :
    Rab.activeInv cfg.st = true := by
  unfold Rab.goodCfg at h
  rw [Bool.and_eq_true] at h
  exact h.1

/-- One resumption of the loop preserves goodness. -/
theorem step_preserves_good (env : Nat → Rab.SubStep → Option String)
    (nodes : List String) (cfg : Rab.MachineConfig) (h : Rab.goodCfg cfg = true) :
    Rab.goodCfg (Rab.step env nodes cfg) = true := by
  rcases cfg with ⟨st, pc⟩
  rcases pc with _ | ⟨i, s⟩
  · simpa [Rab.step] using h
  · obtain ⟨hA, hP⟩ := (goodCfg_some_iff st i s).1 h
    cases s with
    | maintOnStep =>
      cases henv : env i Rab.SubStep.maintOnStep with
      | some e =>
        simp [Rab.step, henv, Rab.goodCfg, Rab.activeInv, Rab.failState,
          Rab.phaseTerminalOrIdle]
      | none =>
        simp [Rab.step, henv, Rab.goodCfg, Rab.activeInv, Rab.phaseTerminalOrIdle, hA]
    | drainPhase =>
      cases henv : env i Rab.SubStep.drainPhase with
      | some e =>
        simp [Rab.step, henv, Rab.goodCfg, Rab.activeInv, Rab.failState,
          Rab.phaseTerminalOrIdle]
      | none =>
        simp [Rab.step, henv, Rab.goodCfg, Rab.activeInv, Rab.phaseTerminalOrIdle, hA]
    | restartPhase =>
      cases henv : env i Rab.SubStep.restartPhase with
      | some e =>
        simp [Rab.step, henv, Rab.goodCfg, Rab.activeInv, Rab.failState,
          Rab.phaseTerminalOrIdle]
      | none =>
        simp [Rab.step, henv, Rab.goodCfg, Rab.activeInv, Rab.phaseTerminalOrIdle, hA]
    | validatePhase =>
      cases henv : env i Rab.SubStep.validatePhase with
      | some e =>
        simp [Rab.step, henv, Rab.goodCfg, Rab.activeInv, Rab.failState,
          Rab.phaseTerminalOrIdle]
      | none =>
        by_cases hlt : i + 1 < nodes.length
        · simp [Rab.step, henv, hlt, Rab.goodCfg, Rab.activeInv, hA, hP]
        · simp [Rab.step, henv, hlt, Rab.goodCfg, Rab.activeInv,
            Rab.phaseTerminalOrIdle]
    | interDelay =>
      cases hget : nodes[i + 1]? with
      | some nm =>
        simp [Rab.step, hget, Rab.goodCfg, Rab.activeInv, Rab.phaseTerminalOrIdle, hA]
      | none =>
        simp [Rab.step, hget, Rab.goodCfg, Rab.activeInv, hA, hP]

/-- A cancel-free event sequence preserves goodness. -/
theorem runEvents_good (env : Nat → Rab.SubStep → Option String) (nodes : List String)
    (evs : List Rab.OrchEvent) (h : ∀ e ∈ evs, e ≠ Rab.OrchEvent.cancelReq)
    (cfg : Rab.MachineConfig) (hg : Rab.goodCfg cfg = true) :
    Rab.goodCfg (Rab.runEvents env nodes cfg evs) = true := by
  induction evs generalizing cfg with
  | nil => simpa [Rab.runEvents] using hg
  | cons ev rest ih =>
    have hev : ev ≠ Rab.OrchEvent.cancelReq := h ev (List.mem_cons_self ev rest)
    have hrw : Rab.runEvents env nodes cfg (ev :: rest)
        = Rab.runEvents env nodes (Rab.applyEvent env nodes cfg ev) rest := rfl
    rw [hrw]
    refine ih (fun e he => h e (List.mem_cons_of_mem _ he)) _ ?_
    cases ev with
    | tick => exact step_preserves_good env nodes cfg hg
    | cancelReq => exact absurd rfl hev

/-- The activation prefix leaves a good configuration. -/
theorem startConfig_good (nodes : List String) :
    Rab.goodCfg (Rab.startConfig nodes) = true := by
  cases nodes <;> rfl

/-- C4 (amended): spec invariant 1 — `isActive` iff the phase is none of
idle, completed, failed, cancelled — holds in the initial state and at
every await boundary of every run in which no cancel is interleaved.
(A cancel itself re-establishes it, but the continuing loop's next
mutation breaks it; see the counterexample.) -/
theorem C4_activeInv_cancel_free (env : Nat → Rab.SubStep → Option String)
    (nodes : List String) (evs : List Rab.OrchEvent)
    (h : ∀ e ∈ evs, e ≠ Rab.OrchEvent.cancelReq) :
    Rab.activeInv Rab.initialOrchState = true
    ∧ Rab.activeInv (Rab.runEvents env nodes (Rab.startConfig nodes) evs).st = true := by
  refine ⟨rfl, ?_⟩
  exact goodCfg_activeInv _
    (runEvents_good env nodes evs h (Rab.startConfig nodes) (startConfig_good nodes))

/-- C4, witness: two await boundaries of a clean 2-node run. -/
theorem C4_activeInv_cancel_free_witness :
    (∀ e ∈ [Rab.OrchEvent.tick, Rab.OrchEvent.tick], e ≠ Rab.OrchEvent.cancelReq)
    ∧ (Rab.activeInv Rab.initialOrchState = true
      ∧ Rab.activeInv (Rab.runEvents (fun _ _ => none) ["a", "b"]
          (Rab.startConfig ["a", "b"])
          [Rab.OrchEvent.tick, Rab.OrchEvent.tick]).st = true) :=
  ⟨by decide, C4_activeInv_cancel_free (fun _ _ => none) ["a", "b"]
    [Rab.OrchEvent.tick, Rab.OrchEvent.tick] (by decide)⟩

/-- C4, counterexample: cancel during node `a`'s maintenance await, then
let the loop resume once — the state has `isActive = false` with
`phase = draining`, violating the claimed equivalence at a reachable
point. -/
theorem C4_activeInv_counterexample :
    Rab.activeInv (Rab.runEvents (fun _ _ => none) ["a", "b"]
        (Rab.startConfig ["a", "b"])
        [Rab.OrchEvent.cancelReq, Rab.OrchEvent.tick]).st = false := by
  decide

/-- C1: the run loop never observes the cancellation — after a cancel
issued while node `a` is in its maintenance await, the loop proceeds
through node `b` and finishes with `phase = completed`, the cancelled
phase overwritten, the second node fully processed. -/
theorem C1_cancel_not_observed :
    (Rab.runEvents (fun _ _ => none) ["a", "b"] (Rab.startConfig ["a", "b"])
        (Rab.OrchEvent.cancelReq :: List.replicate 9 Rab.OrchEvent.tick)).st.phase
      = Rab.Phase.completed
    ∧ (Rab.runEvents (fun _ _ => none) ["a", "b"] (Rab.startConfig ["a", "b"])
        (Rab.OrchEvent.cancelReq :: List.replicate 9 Rab.OrchEvent.tick)).st.completedCount
      = 2
    ∧ (Rab.runEvents (fun _ _ => none) ["a", "b"] (Rab.startConfig ["a", "b"])
        (Rab.OrchEvent.cancelReq :: List.replicate 9 Rab.OrchEvent.tick)).st.nodeIndex
      = 1
    ∧ "Rolling restart cancelled by user"
        ∈ (Rab.runEvents (fun _ _ => none) ["a", "b"] (Rab.startConfig ["a", "b"])
            (Rab.OrchEvent.cancelReq :: List.replicate 9 Rab.OrchEvent.tick)).st.errors := by
  decide

/-- C9: with the orchestrator idle and admission passed, a dry-run start
returns the dry-run record — node names in restart order and the
`4 minutes per node` estimate — and leaves the orchestrator state
untouched. -/
theorem C9_dry_run (s : Rab.OrchState) (reasons : List String)
    (nodeNames : List String) (h : s.isActive = false) :
    Rab.startRollingRestartEntry s true reasons nodeNames true
      = (Except.ok (some ⟨true, nodeNames,
          toString (nodeNames.length * 4) ++ " minutes",
          "Dry run completed - restart would proceed"⟩), s) := by
  simp [Rab.startRollingRestartEntry, h]

/-- C9, witness: a 3-node cluster estimates `12 minutes` and the state
stays the idle initial state. -/
theorem C9_dry_run_witness :
    Rab.initialOrchState.isActive = false
    ∧ Rab.startRollingRestartEntry Rab.initialOrchState true [] ["a", "b", "c"] true
        = (Except.ok (some ⟨true, ["a", "b", "c"], "12 minutes",
            "Dry run completed - restart would proceed"⟩), Rab.initialOrchState) :=
  ⟨rfl, by
    rw [C9_dry_run Rab.initialOrchState [] ["a", "b", "c"] rfl]
    rfl⟩

/-- C3: the `restarting` phase of the per-node sub-machine is a
placeholder — it issues no SSH command and always resolves — while the
claimed stop-then-start sequence (probe, stop at 30 s, re-check, kill
when still active, start at 45 s, strict re-check, best-effort health
probe) lives in `NodeService.restartNode`, which the orchestrator never
calls. -/
theorem C3_restarting_phase_placeholder :
    Rab.restartNodePlaceholder = (Except.ok (), ([] : List Rab.SshCall))
    ∧ Rab.nodeServiceRestartNode "10.0.0.1" Rab.stubbornRestartOracle
        = (Except.ok (), [Rab.svcIsActiveOrEcho, Rab.svcStop, Rab.svcIsActiveOrEcho,
            Rab.svcKill, Rab.svcStart, Rab.svcIsActive, Rab.svcHealthCheck]) :=
  ⟨rfl, rfl⟩
